import Mathlib

/-!
A shallow embedding of the automated-attendance backend
(`backend/app.py`, `backend/opencv_face_recognition.py`,
`backend/security.py`, `backend/config.py`) together with theorems
settling the specification claims about it.

Conventions of the embedding:
* Images are abstracted to the observations the code makes of them:
  the mean gray level the brightness analysis would compute (`none`
  models the analysis raising internally), the corresponding data for
  the histogram-equalized image, and the list of face boxes the Haar
  cascade detects, each carrying the feature template extraction would
  produce (`none` models `extract_face_features` failing).
* The opaque cv2 LBPH predictor is abstracted as a function from the
  trained corpus and a query template to a `(label, distance)` pair.
* SQLite tables become Lean lists; the `UNIQUE(student_id, date)`
  constraint on `attendance` becomes an explicit check in
  `insertAttendance`; an uncommitted transaction that raises is
  modelled by returning the database unchanged (rollback).
* Machine floats (brightness, confidence) are modelled as `Int`.
-/

/-! ## Face engine: `backend/opencv_face_recognition.py` -/

/-- A face template: the normalized 100x100 grayscale patch, abstracted. -/
abbrev Template := Nat

/-- One face box returned by `detect_faces`, carrying the feature that
`extract_face_features` would produce for it (`none` = extraction fails). -/
structure FaceBox where
  feature : Option Template
deriving DecidableEq, Repr

/-- An input image, abstracted to the observations the code makes of it.
`grayMean = none` models `cv2` raising inside the brightness analysis. -/
structure Image where
  grayMean : Option Int
  enhancedGrayMean : Option Int
  faceBoxes : List FaceBox
  enhancedFaceBoxes : List FaceBox
deriving DecidableEq, Repr

/-- `enhance_low_light_image` (app.py:388): histogram equalization,
abstracted as switching to the image's equalized observations. -/
def enhance_low_light_image (img : Image) : Image :=
  { grayMean := img.enhancedGrayMean
    enhancedGrayMean := img.enhancedGrayMean
    faceBoxes := img.enhancedFaceBoxes
    enhancedFaceBoxes := img.enhancedFaceBoxes }

/-- Association-list lookup, mirroring Python dict access order. -/
def alGet {α : Type} : List (String × α) → String → Option α
  | [], _ => none
  | p :: rest, k => if p.1 = k then some p.2 else alGet rest k

/-- Association-list update: existing key keeps its position (Python dict
semantics), a new key is appended at the end. -/
def alSet {α : Type} : List (String × α) → String → α → List (String × α)
  | [], k, v => [(k, v)]
  | p :: rest, k, v => if p.1 = k then (k, v) :: rest else p :: alSet rest k v

/-- `student_id in dict` test. -/
def alContains {α : Type} (l : List (String × α)) (k : String) : Bool :=
  l.any (fun p => p.1 == k)

/-- In-memory state of `OpenCVFaceRecognizer`. `trainedCorpus` is the
(face, label) list the LBPH recognizer was last trained on. -/
structure RecState where
  known_encodings : List (String × List Template)
  label_map : List (String × Nat)
  next_label : Nat
  model_trained : Bool
  trainedCorpus : List (Template × Nat)
deriving DecidableEq, Repr

/-- The fresh recognizer state (`__init__` with no persisted encodings). -/
def initialRecState : RecState :=
  { known_encodings := [], label_map := [], next_label := 0
    model_trained := false, trainedCorpus := [] }

/-- The `(face, label)` training pairs `_train_recognizer` builds; `none`
models the `KeyError` (caught by its handler) if some enrolled id has no
label. -/
def trainingPairs (lm : List (String × Nat)) :
    List (String × List Template) → Option (List (Template × Nat))
  | [] => some []
  | (sid, samples) :: rest =>
    match alGet lm sid with
    | none => none
    | some lbl =>
      match trainingPairs lm rest with
      | none => none
      | some ps => some (samples.map (fun t => (t, lbl)) ++ ps)

/-- `OpenCVFaceRecognizer._train_recognizer` (opencv_face_recognition.py:207).
Note: when `known_encodings` is empty it returns `False` early WITHOUT
resetting `model_trained`, so the previous model stays marked trained. -/
def trainRecognizer (s : RecState) : RecState × Bool :=
  if s.known_encodings.isEmpty then (s, false)
  else
    match trainingPairs s.label_map s.known_encodings with
    | none => (s, false)
    | some faces =>
      if faces.isEmpty then (s, false)
      else ({ s with trainedCorpus := faces, model_trained := true }, true)

/-- `OpenCVFaceRecognizer.register_face` (opencv_face_recognition.py:147):
exactly one detected face required, feature extracted, label assigned on
first enrollment, template appended with the list truncated to its last 5
entries (`[-5:]`), then synchronous retrain. -/
def register_face (s : RecState) (sid : String) (img : Image) : RecState × Bool :=
  match img.faceBoxes with
  | [] => (s, false)
  | [b] =>
    match b.feature with
    | none => (s, false)
    | some t =>
      let lm := if alContains s.label_map sid then s.label_map
                else s.label_map ++ [(sid, s.next_label)]
      let nl := if alContains s.label_map sid then s.next_label else s.next_label + 1
      let samples := (alGet s.known_encodings sid).getD []
      let samples1 := samples ++ [t]
      let samples2 := if samples1.length > 5
                      then samples1.drop (samples1.length - 5) else samples1
      let s2 : RecState :=
        { known_encodings := alSet s.known_encodings sid samples2
          label_map := lm, next_label := nl
          model_trained := s.model_trained, trainedCorpus := s.trainedCorpus }
      ((trainRecognizer s2).1, true)
  | _ :: _ :: _ => (s, false)

/-- `OpenCVFaceRecognizer.remove_student` (opencv_face_recognition.py:331):
delete the student's templates and label, then retrain. -/
def remove_student (s : RecState) (sid : String) : RecState × Bool :=
  let s1 : RecState :=
    { s with known_encodings := s.known_encodings.filter (fun p => ¬ p.1 = sid)
             label_map := s.label_map.filter (fun p => ¬ p.1 = sid) }
  ((trainRecognizer s1).1, true)

/-- The message strings `recognize_face` can produce, as an enumeration. -/
inductive RecMsg where
  /-- "No faces registered in the system" (untrained model). -/
  | noFacesRegistered
  /-- "No face detected in image". -/
  | noFaceDetected
  /-- "Multiple faces detected". -/
  | multipleFaces
  /-- "Could not extract face features". -/
  | couldNotExtract
  /-- "Face recognized but student not found" (label missing from map). -/
  | labelNotFound
  /-- "Face recognized but confidence too low". -/
  | lowConfidence
  /-- "Face recognized with N% confidence" (success). -/
  | recognized
deriving DecidableEq, Repr

/-- The result dict of `recognize_face`; `student_id = none` models the
key being absent from the returned dict. -/
structure RecResult where
  matched : Bool
  message : RecMsg
  confidence : Int
  student_id : Option String
deriving DecidableEq, Repr

/-- The abstracted `cv2` LBPH predictor: from the corpus the model was
trained on and a query template, produce a `(label, distance)` pair. -/
abbrev PredictFn := List (Template × Nat) → Template → Nat × Int

/-- The loop resolving a predicted label back to a student id (first
match in `label_map` order, mirroring the `for`/`break`). -/
def findSidByLabel : List (String × Nat) → Nat → Option String
  | [], _ => none
  | (sid, l) :: rest, lbl => if l = lbl then some sid else findSidByLabel rest lbl

/-- `OpenCVFaceRecognizer.recognize_face` (opencv_face_recognition.py:237).
Note the untrained check precedes face detection. -/
def recognize_face (pf : PredictFn) (s : RecState) (img : Image)
    (confidence_threshold : Int) : RecResult :=
  if s.model_trained = false then
    { matched := false, message := .noFacesRegistered, confidence := 0, student_id := none }
  else
    match img.faceBoxes with
    | [] =>
      { matched := false, message := .noFaceDetected, confidence := 0, student_id := none }
    | [b] =>
      match b.feature with
      | none =>
        { matched := false, message := .couldNotExtract, confidence := 0, student_id := none }
      | some t =>
        let p := pf s.trainedCorpus t
        let score := max 0 (100 - p.2)
        match findSidByLabel s.label_map p.1 with
        | none =>
          { matched := false, message := .labelNotFound, confidence := score, student_id := none }
        | some sid =>
          if score < confidence_threshold then
            { matched := false, message := .lowConfidence, confidence := score,
              student_id := some sid }
          else
            { matched := true, message := .recognized, confidence := score,
              student_id := some sid }
    | _ :: _ :: _ =>
      { matched := false, message := .multipleFaces, confidence := 0, student_id := none }

/-! ## Application layer: `backend/app.py`, `backend/security.py`,
`backend/config.py` -/

/-- Default brightness threshold (config.py:20 / app.py:59). -/
def LOW_LIGHT_THRESHOLD : Int := 50

/-- Default enhancement flag (config.py:21). -/
def APPLY_HISTOGRAM_EQUALIZATION : Bool := true

/-- Offline sync batch cap from config.py:52 (defined there, but note the
sync endpoint in app.py never consults it). -/
def MAX_OFFLINE_RECORDS_PER_BATCH : Nat := 50

/-- The configuration values the face pipeline consumes. -/
structure Config where
  lowLightThreshold : Int
  applyHistogramEqualization : Bool

/-- The process environment a request handler sees: configuration, the
abstracted LBPH predictor, and the recognizer singleton's state. -/
structure Env where
  cfg : Config
  pf : PredictFn
  recS : RecState

/-- A row of the `students` table (the columns the claims touch). -/
structure Student where
  student_id : String
  name : String
deriving DecidableEq, Repr

/-- A row of the `attendance_sessions` table. Timestamps are abstract
clock ticks (`Nat`). -/
structure SessionRow where
  student_id : String
  session_token : String
  qr_verified : Bool
  face_verified : Bool
  created_at : Nat
  expires_at : Nat
deriving DecidableEq, Repr

/-- A row of the `attendance` table. `date` is an abstract calendar day,
`check_in_time` an abstract time of day. -/
structure AttRec where
  student_id : String
  student_name : String
  date : Nat
  check_in_time : Nat
  method : String
  confidence_score : Int
  is_offline : Bool
deriving DecidableEq, Repr

/-- The SQLite database (the tables the claims touch). -/
structure DB where
  students : List Student
  sessions : List SessionRow
  attendance : List AttRec
deriving DecidableEq, Repr

/-- `SELECT name FROM students WHERE student_id = ?` (first row). -/
def lookupStudentName (students : List Student) (sid : String) : Option String :=
  match students.find? (fun st => st.student_id == sid) with
  | some st => some st.name
  | none => none

/-- `detect_low_light` (app.py:352): mean gray level against the
threshold; an internal error is caught and reported as brightness `0.0`
with `is_low_light = False` (the gate fails open). -/
def detect_low_light (threshold : Int) (img : Image) : Int × Bool :=
  match img.grayMean with
  | some b => (b, decide (b < threshold))
  | none => (0, false)

/-- The message field of a `recognize_face_from_image` result. -/
inductive RecImgMsg where
  /-- "LOW_LIGHT_DETECTED". -/
  | lowLightDetected
  /-- "Face does not match expected student. Recognized as R, but expected E". -/
  | faceMismatch (recognized expected : String)
  /-- "Student S not found in database". -/
  | studentNotInDb (sid : String)
  /-- A message propagated from the engine (success or failure). -/
  | engine (m : RecMsg)
deriving DecidableEq, Repr

/-- The result dict of `recognize_face_from_image`; `none` fields model
keys absent from the dict the code returns on that path. -/
structure RecImgResult where
  matched : Bool
  message : RecImgMsg
  student_id : Option String
  student_name : Option String
  confidence : Option Int
  brightness : Option Int
deriving DecidableEq, Repr

/-- The classification phase of `recognize_face_from_image` (app.py:1463
onward), reached once the low-light gate has passed: run the engine at
threshold 60, apply the expected-identity mismatch check, then resolve
the student name from the database. -/
def recognitionPhase (env : Env) (students : List Student) (img : Image)
    (expected : Option String) : RecImgResult :=
  let r := recognize_face env.pf env.recS img 60
  if r.matched then
    let rsid := r.student_id.getD ""
    if expected.isSome && decide (some rsid ≠ expected) then
      { matched := false, message := .faceMismatch rsid (expected.getD "")
        student_id := none, student_name := none
        confidence := some r.confidence, brightness := none }
    else
      match lookupStudentName students rsid with
      | some nm =>
        { matched := true, message := .engine r.message
          student_id := some rsid, student_name := some nm
          confidence := some r.confidence, brightness := none }
      | none =>
        { matched := false, message := .studentNotInDb rsid
          student_id := none, student_name := none
          confidence := none, brightness := none }
  else
    { matched := false, message := .engine r.message
      student_id := none, student_name := none
      confidence := some r.confidence, brightness := none }

/-- `recognize_face_from_image` (app.py:1415): low-light gate (with
optional one-shot enhancement and re-check), then classification. The
image argument is the already-decoded image. -/
def recognize_face_from_image (env : Env) (students : List Student)
    (img : Image) (expected : Option String) : RecImgResult :=
  let ll := detect_low_light env.cfg.lowLightThreshold img
  if ll.2 then
    if env.cfg.applyHistogramEqualization then
      let img2 := enhance_low_light_image img
      let ll2 := detect_low_light env.cfg.lowLightThreshold img2
      if ll2.2 then
        { matched := false, message := .lowLightDetected
          student_id := none, student_name := none
          confidence := none, brightness := some ll2.1 }
      else recognitionPhase env students img2 expected
    else
      { matched := false, message := .lowLightDetected
        student_id := none, student_name := none
        confidence := none, brightness := some ll.1 }
  else recognitionPhase env students img expected

/-- Error raised by an `INSERT` that violates a table constraint. -/
inductive DbErr where
  /-- sqlite `IntegrityError`: `UNIQUE(student_id, date)` on `attendance`
  (init_db, app.py:197) — the spec calls this rejection `AlreadyMarked`. -/
  | uniqueStudentDate
deriving DecidableEq, Repr

/-- `INSERT INTO attendance`: enforced by the `UNIQUE(student_id, date)`
constraint of the schema; on violation nothing is written. -/
def insertAttendance (tbl : List AttRec) (r : AttRec) : Except DbErr (List AttRec) :=
  if tbl.any (fun x => decide (x.student_id = r.student_id ∧ x.date = r.date)) then
    .error .uniqueStudentDate
  else .ok (tbl ++ [r])

/-- `cleanup_expired_sessions` (app.py:937):
`DELETE FROM attendance_sessions WHERE expires_at < CURRENT_TIMESTAMP`. -/
def cleanup_expired_sessions (db : DB) (now : Nat) : DB :=
  { db with sessions := db.sessions.filter (fun s => ¬ s.expires_at < now) }

/-- `validate_student_id` (security.py:45): the regex `^\d{4}CIT\d{4}$`. -/
def validate_student_id (s : String) : Bool :=
  let cs := s.toList
  cs.length == 11 && (cs.take 4).all Char.isDigit
    && decide ((cs.drop 4).take 3 = ['C', 'I', 'T'])
    && (cs.drop 7).all Char.isDigit

/-- Failure outcomes of `validate_attendance_token` (HTTP errors). -/
inductive OpenErr where
  /-- 400 "Invalid token format" (empty or shorter than 10 chars). -/
  | invalidTokenFormat
  /-- 400 "Invalid student ID in token". -/
  | invalidStudentIdInToken
  /-- 404 "Student not found". -/
  | studentNotFound
  /-- 500: the session-insert transaction raises `NameError` because
  `timedelta` is used (app.py:912) but never imported (app.py:20 imports
  only `datetime` and `date`); caught by the handler and re-raised as
  HTTP 500. -/
  | nameErrorTimedelta
deriving DecidableEq, Repr

/-- `validate_attendance_token` (app.py:865), i.e. `openSession`. The
argument is the already-extracted, stripped token string. On the success
path the code deletes the student's sessions and then evaluates
`datetime.now() + timedelta(seconds=60)`, which raises `NameError`
(`timedelta` is not imported); the uncommitted `DELETE` rolls back, so
only the committed expired-session cleanup survives. -/
def validate_attendance_token (db : DB) (now : Nat) (token : String) :
    DB × Except OpenErr (String × String) :=
  if token.length < 10 then (db, .error .invalidTokenFormat)
  else
    let student_id := if token.length ≥ 15 then token.take 15 else token
    if ¬ validate_student_id student_id then (db, .error .invalidStudentIdInToken)
    else
      match lookupStudentName db.students student_id with
      | none => (db, .error .studentNotFound)
      | some _ =>
        let db1 := cleanup_expired_sessions db now
        (db1, .error .nameErrorTimedelta)

/-- The session filter of `verify_face` (app.py:969): `qr_verified = 1
AND face_verified = 0 AND expires_at > CURRENT_TIMESTAMP`. -/
def sessionPred (sid : String) (now : Nat) (s : SessionRow) : Bool :=
  s.student_id == sid && s.qr_verified && !s.face_verified
    && decide (now < s.expires_at)

/-- The HTTP error outcomes of `verify_face`. -/
inductive VerifyErr where
  /-- 400 "Invalid student ID format". -/
  | invalidStudentIdFormat
  /-- 400 "Student name is required" (empty after sanitizing). -/
  | studentNameRequired
  /-- 400 "QR verification required before face scan." — raised whenever
  no session row passes `sessionPred`, i.e. both when no session exists
  and when the session has expired. -/
  | qrRequired
  /-- 500: `student` row fetch returned `None` and `student[0]` raised. -/
  | studentRowMissing
  /-- 500: sqlite `IntegrityError` from `UNIQUE(student_id, date)` — the
  second attendance commit for the same identity and day; the whole
  uncommitted transaction (session update + insert) rolls back. -/
  | integrityAlreadyMarked
deriving DecidableEq, Repr

/-- The response of `verify_face`. -/
inductive VerifyOutcome where
  /-- An `HTTPException` with the given status code. -/
  | httpError (code : Nat) (e : VerifyErr)
  /-- `success = False, verified = False` with the failure message. -/
  | failed (msg : RecImgMsg)
  /-- `success = True`: attendance marked, with id, db name, confidence. -/
  | marked (sid nm : String) (conf : Int)
deriving DecidableEq, Repr

/-- `verify_face` (app.py:948), i.e. `closeSession`: input validation,
session check, face pipeline, then session update + attendance insert in
one transaction. `nm` is the request's student name after
`sanitize_input`; the image is the already-validated, decoded image.
`today`/`nowTime` are `CURRENT_DATE`/`CURRENT_TIME`. -/
def verify_face (env : Env) (db : DB) (now today nowTime : Nat)
    (sid nm : String) (img : Image) : DB × VerifyOutcome :=
  if ¬ validate_student_id sid then (db, .httpError 400 .invalidStudentIdFormat)
  else if nm = "" then (db, .httpError 400 .studentNameRequired)
  else
    match db.sessions.find? (sessionPred sid now) with
    | none => (db, .httpError 400 .qrRequired)
    | some session =>
      let r := recognize_face_from_image env db.students img (some sid)
      if ¬ r.matched then (db, .failed r.message)
      else
        let sessions1 := db.sessions.map (fun s =>
          if s.student_id = sid ∧ s.session_token = session.session_token
          then { s with face_verified := true } else s)
        match lookupStudentName db.students sid with
        | none => (db, .httpError 500 .studentRowMissing)
        | some dbName =>
          match insertAttendance db.attendance
              { student_id := sid, student_name := dbName, date := today
                check_in_time := nowTime, method := "qr_face"
                confidence_score := r.confidence.getD 0, is_offline := false } with
          | .ok att1 =>
            ({ db with sessions := sessions1, attendance := att1 },
             .marked sid dbName (r.confidence.getD 0))
          | .error _ => (db, .httpError 500 .integrityAlreadyMarked)

/-! ## Offline reconciliation: `sync_offline_attendance` (app.py:1048) -/

/-- One batched offline record. `timestamp` is the parsed client
timestamp as an abstract `(date, time)` pair; `none` models an
unparsable ISO string (the code then substitutes the server's current
date and time). -/
structure OfflineRecord where
  studentId : String
  studentName : String
  image : Image
  timestamp : Option (Nat × Nat)
deriving DecidableEq, Repr

/-- The per-item message appended to `results`. -/
inductive SyncItemOutcome where
  /-- "Offline attendance synced successfully". -/
  | synced
  /-- The face pipeline's failure message, passed through. -/
  | faceFailed (m : RecImgMsg)
  /-- "Error processing record: ..." — the caught per-record exception
  (here the `IntegrityError` from the attendance insert). -/
  | insertError (e : DbErr)
deriving DecidableEq, Repr

/-- The accumulated state of the sync loop: the attendance table as seen
inside the shared transaction, the per-item `results` list, and the two
counters. -/
structure SyncState where
  attendance : List AttRec
  results : List (String × SyncItemOutcome)
  success_count : Nat
  failure_count : Nat
deriving DecidableEq, Repr

/-- The face-pipeline result for one batch item (app.py:1064). -/
def itemFaceResult (env : Env) (students : List Student) (r : OfflineRecord) :
    RecImgResult :=
  recognize_face_from_image env students r.image (some r.studentId)

/-- Whether one batch item passes classification. -/
def itemMatched (env : Env) (students : List Student) (r : OfflineRecord) : Bool :=
  (itemFaceResult env students r).matched

/-- The attendance row the sync loop inserts for a matched item
(app.py:1086): resolved id/name/confidence from the face result, the
parsed (or substituted) date and time, the literal `method` value
`'face_recognition'`, and `is_offline = 1`. -/
def itemRec (env : Env) (students : List Student) (today nowTime : Nat)
    (r : OfflineRecord) : AttRec :=
  let fr := itemFaceResult env students r
  let dt := r.timestamp.getD (today, nowTime)
  { student_id := fr.student_id.getD "", student_name := fr.student_name.getD ""
    date := dt.1, check_in_time := dt.2, method := "face_recognition"
    confidence_score := fr.confidence.getD 0, is_offline := true }

/-- One iteration of the sync loop (app.py:1061-1115): classify, then
insert; any per-record exception (the unique-constraint violation) is
caught and counted as a failure without affecting siblings. -/
def sync_one (env : Env) (students : List Student) (today nowTime : Nat)
    (st : SyncState) (r : OfflineRecord) : SyncState :=
  let fr := itemFaceResult env students r
  if fr.matched = false then
    { st with results := st.results ++ [(r.studentId, .faceFailed fr.message)]
              failure_count := st.failure_count + 1 }
  else
    match insertAttendance st.attendance (itemRec env students today nowTime r) with
    | .ok tbl =>
      { attendance := tbl
        results := st.results ++ [(r.studentId, .synced)]
        success_count := st.success_count + 1
        failure_count := st.failure_count }
    | .error e =>
      { st with results := st.results ++ [(r.studentId, .insertError e)]
                failure_count := st.failure_count + 1 }

/-- `sync_offline_attendance` (app.py:1048): fold the loop over the
batch, starting from the current attendance table; one commit at the
end persists all successful inserts. Note there is no batch-size check
against `MAX_OFFLINE_RECORDS_PER_BATCH`. -/
def sync_offline_attendance (env : Env) (students : List Student)
    (today nowTime : Nat) (att0 : List AttRec) (records : List OfflineRecord) :
    SyncState :=
  records.foldl (sync_one env students today nowTime)
    { attendance := att0, results := [], success_count := 0, failure_count := 0 }

/-! ## Concrete instances used by witnesses and counterexamples -/

/-- A student id matching `^\d{4}CIT\d{4}$`. -/
def sidA : String := "2022CIT0001"

/-- A second student id matching the pattern. -/
def sidB : String := "2022CIT0002"

/-- A predictor that maps every template to label 0 at distance 10
(confidence 90). -/
def pfZero : PredictFn := fun _ _ => (0, 10)

/-- A bright image with exactly one extractable face. -/
def imgOneFace : Image :=
  { grayMean := some 120, enhancedGrayMean := some 120
    faceBoxes := [{ feature := some 5 }]
    enhancedFaceBoxes := [{ feature := some 5 }] }

/-- A bright image with no detectable face. -/
def imgBrightNoFace : Image :=
  { grayMean := some 120, enhancedGrayMean := some 120
    faceBoxes := [], enhancedFaceBoxes := [] }

/-- An image on which the brightness analysis raises internally. -/
def imgAnalysisError : Image :=
  { grayMean := none, enhancedGrayMean := none
    faceBoxes := [{ feature := some 5 }], enhancedFaceBoxes := [] }

/-- A recognizer trained on one template of `sidA` (label 0). -/
def recTrainedA : RecState :=
  { known_encodings := [(sidA, [5])], label_map := [(sidA, 0)]
    next_label := 1, model_trained := true, trainedCorpus := [(5, 0)] }

/-- A recognizer trained on one template of `sidB` (label 0). -/
def recTrainedB : RecState :=
  { known_encodings := [(sidB, [5])], label_map := [(sidB, 0)]
    next_label := 1, model_trained := true, trainedCorpus := [(5, 0)] }

/-- A recognizer holding exactly 5 templates for `sidA`. -/
def recFiveA : RecState :=
  { known_encodings := [(sidA, [1, 2, 3, 4, 5])], label_map := [(sidA, 0)]
    next_label := 1, model_trained := true
    trainedCorpus := [(1, 0), (2, 0), (3, 0), (4, 0), (5, 0)] }

/-- The default configuration (threshold 50, enhancement on). -/
def cfgX : Config :=
  { lowLightThreshold := LOW_LIGHT_THRESHOLD
    applyHistogramEqualization := APPLY_HISTOGRAM_EQUALIZATION }

/-- Environment whose classifier confidently recognizes `sidA`. -/
def envA : Env := { cfg := cfgX, pf := pfZero, recS := recTrainedA }

/-- Environment whose classifier confidently recognizes `sidB`. -/
def envB : Env := { cfg := cfgX, pf := pfZero, recS := recTrainedB }

/-- A students table containing only `sidA`. -/
def studentsA : List Student := [{ student_id := sidA, name := "Amrutha M" }]

/-! ## Helper lemmas -/

theorem trainRecognizer_known_encodings (s : RecState) :
    (trainRecognizer s).1.known_encodings = s.known_encodings := by
  unfold trainRecognizer
  split
  · rfl
  · split
    · rfl
    · split <;> rfl

theorem alGet_alSet {α : Type} (l : List (String × α)) (k : String) (v : α) :
    alGet (alSet l k v) k = some v := by
  induction l with
  | nil => simp [alSet, alGet]
  | cons p rest ih =>
    by_cases h : p.1 = k
    · simp [alSet, alGet, h]
    · simp [alSet, alGet, h, ih]

/-! ## Claim C3 — classifier state machine on last removal -/

/-- Claim C3 (code bug exhibit): the first successful enrollment does move
the model from untrained to trained, but removing the LAST identity does
not return it to untrained: `_train_recognizer` returns early on an empty
template set without clearing `model_trained`, so after the last removal
`known_encodings` is empty yet `model_trained` is still `true`, and a
classification attempt proceeds against the stale model — it fails with
the "Face recognized but student not found" reason (the stale label no
longer resolves), not with the untrained-model reason the claim requires. -/
theorem stale_model_after_last_removal :
    (register_face initialRecState sidA imgOneFace).2 = true
    ∧ (register_face initialRecState sidA imgOneFace).1.model_trained = true
    ∧ (remove_student (register_face initialRecState sidA imgOneFace).1 sidA).1.known_encodings = []
    ∧ (remove_student (register_face initialRecState sidA imgOneFace).1 sidA).1.model_trained = true
    ∧ (recognize_face pfZero
        (remove_student (register_face initialRecState sidA imgOneFace).1 sidA).1
        imgOneFace 60).message = RecMsg.labelNotFound
    ∧ RecMsg.labelNotFound ≠ RecMsg.noFacesRegistered := by
  decide

/-! ## Claim C5 — openSession always raises NameError -/

/-- A database holding one student whose id fits the token extraction. -/
def dbOpen : DB :=
  { students := [{ student_id := sidA, name := "Amrutha M" }]
    sessions := [{ student_id := sidA, session_token := "oldtok"
                   qr_verified := true, face_verified := false
                   created_at := 50, expires_at := 200 }]
    attendance := [] }

/-- Claim C5 (code bug exhibit): for a valid token whose extracted
identity exists (token = `sidA`, 11 chars, matching the id regex), the
session-open endpoint reaches the session-creation transaction and then
raises `NameError` (`timedelta` is used at app.py:912 but never
imported), surfaced as HTTP 500. No new session is created, and even the
`DELETE` of the student's prior (unexpired) session rolls back: the
database is returned unchanged. -/
theorem open_session_name_error :
    validate_attendance_token dbOpen 100 sidA
      = (dbOpen, Except.error OpenErr.nameErrorTimedelta) := by
  rfl

/-! ## Claim C6 — zero detectable faces -/

/-- Claim C6 counterexample: with an UNTRAINED model, classifying an
image with zero detectable faces yields the untrained-model reason
("No faces registered in the system"), not `NoFace` — the untrained
check precedes face detection, so the claim's "regardless of model
state" fails. -/
theorem untrained_zero_faces_not_noface :
    (recognize_face pfZero initialRecState imgBrightNoFace 60).message
      = RecMsg.noFacesRegistered
    ∧ RecMsg.noFacesRegistered ≠ RecMsg.noFaceDetected := by
  decide

/-- Claim C6 as amended: whenever the model is TRAINED, classifying an
image with zero detectable faces yields the `NoFace` reason ("No face
detected in image"); when the model is untrained, the untrained-model
reason takes precedence. -/
theorem trained_zero_faces_noface (pf : PredictFn) (s : RecState) (img : Image)
    (thr : Int) (htr : s.model_trained = true) (hz : img.faceBoxes = []) :
    recognize_face pf s img thr =
      { matched := false, message := RecMsg.noFaceDetected
        confidence := 0, student_id := none } := by
  unfold recognize_face
  rw [htr, hz]
  simp

/-- Witness for `trained_zero_faces_noface` at a concrete trained state. -/
theorem trained_zero_faces_noface_witness :
    recTrainedA.model_trained = true
    ∧ imgBrightNoFace.faceBoxes = []
    ∧ recognize_face pfZero recTrainedA imgBrightNoFace 60 =
        { matched := false, message := RecMsg.noFaceDetected
          confidence := 0, student_id := none } :=
  ⟨rfl, rfl, trained_zero_faces_noface pfZero recTrainedA imgBrightNoFace 60 rfl rfl⟩

/-! ## Claim C7 — template list bounded at the 5 most recent -/

/-- Claim C7: enrolling a 6th template for an identity that already has 5
stored templates succeeds and leaves exactly the last 5 of the 6 — the
oldest is evicted, the rest keep their order with the new one appended. -/
theorem sixth_template_keeps_last_five (s : RecState) (sid : String)
    (img : Image) (b : FaceBox) (t : Template) (prev : List Template)
    (hfb : img.faceBoxes = [b]) (hft : b.feature = some t)
    (hprev : alGet s.known_encodings sid = some prev) (hlen : prev.length = 5) :
    (register_face s sid img).2 = true
    ∧ alGet (register_face s sid img).1.known_encodings sid
        = some ((prev ++ [t]).drop 1)
    ∧ ((prev ++ [t]).drop 1).length = 5 := by
  unfold register_face
  rw [hfb]
  dsimp only
  rw [hft]
  dsimp only
  simp only [hprev, Option.getD_some, List.length_append, hlen, List.length_singleton]
  norm_num
  rw [trainRecognizer_known_encodings, alGet_alSet]
  simp [hlen]

/-- Witness for `sixth_template_keeps_last_five`: 5 templates `[1..5]`,
enrolling template 6 leaves `[2,3,4,5,6]`. -/
theorem sixth_template_keeps_last_five_witness :
    (register_face recFiveA sidA
        { grayMean := some 120, enhancedGrayMean := some 120
          faceBoxes := [{ feature := some 6 }]
          enhancedFaceBoxes := [{ feature := some 6 }] }).2 = true
    ∧ alGet (register_face recFiveA sidA
        { grayMean := some 120, enhancedGrayMean := some 120
          faceBoxes := [{ feature := some 6 }]
          enhancedFaceBoxes := [{ feature := some 6 }] }).1.known_encodings sidA
        = some (([1, 2, 3, 4, 5] ++ [6]).drop 1)
    ∧ (([1, 2, 3, 4, 5] ++ [(6 : Template)]).drop 1).length = 5 :=
  sixth_template_keeps_last_five recFiveA sidA
    { grayMean := some 120, enhancedGrayMean := some 120
      faceBoxes := [{ feature := some 6 }]
      enhancedFaceBoxes := [{ feature := some 6 }] }
    { feature := some 6 } 6 [1, 2, 3, 4, 5] rfl rfl (by decide) rfl

/-! ## Claim C10 — low-light gate fails open on analysis error -/

/-- Claim C10: if the brightness analysis raises internally,
`detect_low_light` reports brightness `0.0` and `is_low_light = False`,
and `recognize_face_from_image` therefore skips the low-light rejection
and proceeds directly to the classification phase. -/
theorem lowlight_analysis_fails_open (env : Env) (students : List Student)
    (img : Image) (expected : Option String) (h : img.grayMean = none) :
    detect_low_light env.cfg.lowLightThreshold img = (0, false)
    ∧ recognize_face_from_image env students img expected
        = recognitionPhase env students img expected := by
  have hd : detect_low_light env.cfg.lowLightThreshold img = (0, false) := by
    unfold detect_low_light
    rw [h]
  refine ⟨hd, ?_⟩
  unfold recognize_face_from_image
  rw [hd]
  simp

/-- Witness for `lowlight_analysis_fails_open` on a concrete image whose
analysis errors. -/
theorem lowlight_analysis_fails_open_witness :
    imgAnalysisError.grayMean = none
    ∧ detect_low_light envA.cfg.lowLightThreshold imgAnalysisError = (0, false)
    ∧ recognize_face_from_image envA studentsA imgAnalysisError (some sidA)
        = recognitionPhase envA studentsA imgAnalysisError (some sidA) :=
  ⟨rfl, lowlight_analysis_fails_open envA studentsA imgAnalysisError (some sidA) rfl⟩

/-! ## Claim C1 — confident wrong-identity match is rejected, no record -/

/-- Claim C1: in a close-session request for identity `sidA0` with a
valid session, if the classifier confidently matches a DIFFERENT
identity `sidB0` (engine success at the app threshold 60 with
`student_id = sidB0 ≠ sidA0`), then `verify_face` fails with the
mismatch message and returns the database unchanged — in particular no
attendance record is written for the attempt. -/
theorem mismatch_rejected_no_attendance (env : Env) (db : DB)
    (now today nowTime : Nat) (sidA0 nm : String) (img : Image)
    (sidB0 : String) (c : Int) (session : SessionRow)
    (hvalid : validate_student_id sidA0 = true)
    (hnm : nm ≠ "")
    (hsess : db.sessions.find? (sessionPred sidA0 now) = some session)
    (hlight : (detect_low_light env.cfg.lowLightThreshold img).2 = false)
    (hrec : recognize_face env.pf env.recS img 60 =
      { matched := true, message := RecMsg.recognized
        confidence := c, student_id := some sidB0 })
    (hne : sidB0 ≠ sidA0) :
    verify_face env db now today nowTime sidA0 nm img
      = (db, VerifyOutcome.failed (RecImgMsg.faceMismatch sidB0 sidA0))
    ∧ (verify_face env db now today nowTime sidA0 nm img).1.attendance
      = db.attendance := by
  have hphase : recognitionPhase env db.students img (some sidA0) =
      { matched := false, message := RecImgMsg.faceMismatch sidB0 sidA0
        student_id := none, student_name := none
        confidence := some c, brightness := none } := by
    unfold recognitionPhase
    rw [hrec]
    simp [hne]
  have hrfi : recognize_face_from_image env db.students img (some sidA0) =
      { matched := false, message := RecImgMsg.faceMismatch sidB0 sidA0
        student_id := none, student_name := none
        confidence := some c, brightness := none } := by
    unfold recognize_face_from_image
    dsimp only
    rw [hlight]
    simp [hphase]
  have hmain : verify_face env db now today nowTime sidA0 nm img
      = (db, VerifyOutcome.failed (RecImgMsg.faceMismatch sidB0 sidA0)) := by
    unfold verify_face
    rw [hsess]
    simp [hvalid, hnm, hrfi]
  exact ⟨hmain, by rw [hmain]⟩

/-- Database for the C1 witness: students `sidA`, `sidB`; one open
session for `sidA`; empty attendance. -/
def dbC1 : DB :=
  { students := [{ student_id := sidA, name := "Amrutha M" },
                 { student_id := sidB, name := "C M Shalini" }]
    sessions := [{ student_id := sidA, session_token := "tokA"
                   qr_verified := true, face_verified := false
                   created_at := 0, expires_at := 1000 }]
    attendance := [] }

/-- Witness for `mismatch_rejected_no_attendance`: the classifier of
`envB` confidently recognizes `sidB` while the session is for `sidA`. -/
theorem mismatch_rejected_no_attendance_witness :
    verify_face envB dbC1 5 7 8 sidA ("Amrutha M") imgOneFace
      = (dbC1, VerifyOutcome.failed (RecImgMsg.faceMismatch sidB sidA))
    ∧ (verify_face envB dbC1 5 7 8 sidA ("Amrutha M") imgOneFace).1.attendance
      = dbC1.attendance :=
  mismatch_rejected_no_attendance envB dbC1 5 7 8 sidA ("Amrutha M") imgOneFace
    sidB 90
    { student_id := sidA, session_token := "tokA", qr_verified := true
      face_verified := false, created_at := 0, expires_at := 1000 }
    (by decide) (by decide) (by decide) (by decide) (by decide) (by decide)

/-! ## Claim C2 — unique attendance per (identity, date) -/

/-- The schema invariant `UNIQUE(student_id, date)`: no two rows of the
attendance table share identity and date. -/
def uniquePerStudentDate (tbl : List AttRec) : Prop :=
  tbl.Pairwise (fun a b => ¬ (a.student_id = b.student_id ∧ a.date = b.date))

theorem insertAttendance_preserves_unique (tbl : List AttRec) (r : AttRec)
    (tbl' : List AttRec) (hu : uniquePerStudentDate tbl)
    (hok : insertAttendance tbl r = .ok tbl') : uniquePerStudentDate tbl' := by
  unfold insertAttendance at hok
  by_cases hc : tbl.any
      (fun x => decide (x.student_id = r.student_id ∧ x.date = r.date)) = true
  · rw [if_pos hc] at hok
    exact absurd hok (by simp)
  · rw [if_neg hc] at hok
    injection hok with h
    subst h
    unfold uniquePerStudentDate at hu ⊢
    rw [List.pairwise_append]
    refine ⟨hu, by simp, ?_⟩
    intro a ha b hb
    simp only [List.mem_singleton] at hb
    subst hb
    simp only [List.any_eq_true, decide_eq_true_eq, not_exists, not_and] at hc
    push_neg at hc
    intro hcon
    exact hc a ha hcon.1 hcon.2

/-- Claim C2: (1) a successful attendance insert preserves the
per-(identity, date) uniqueness invariant; (2) a second commit attempt —
a close-session request that passes session check and face match while a
record for the same identity and the same date already exists — is
rejected by the `UNIQUE(student_id, date)` constraint (the spec's
`AlreadyMarked`) and the database is returned unchanged: the existing
record is not overwritten and nothing is written. -/
theorem attendance_unique_per_day :
    (∀ (tbl : List AttRec) (r : AttRec) (tbl' : List AttRec),
      uniquePerStudentDate tbl → insertAttendance tbl r = .ok tbl' →
      uniquePerStudentDate tbl')
    ∧ (∀ (env : Env) (db : DB) (now today nowTime : Nat)
        (sid nm dbName : String) (img : Image) (session : SessionRow),
      validate_student_id sid = true → nm ≠ "" →
      db.sessions.find? (sessionPred sid now) = some session →
      (recognize_face_from_image env db.students img (some sid)).matched = true →
      lookupStudentName db.students sid = some dbName →
      db.attendance.any (fun x => decide (x.student_id = sid ∧ x.date = today)) = true →
      verify_face env db now today nowTime sid nm img
        = (db, VerifyOutcome.httpError 500 VerifyErr.integrityAlreadyMarked)) := by
  constructor
  · exact insertAttendance_preserves_unique
  · intro env db now today nowTime sid nm dbName img session
      hvalid hnm hsess hmatch hname hdup
    unfold verify_face
    rw [hsess]
    simp only [hvalid, hnm, hmatch, hname]
    simp only [insertAttendance, hdup]
    simp [hvalid, hnm]

/-- Database for the C2 witness: a valid open session for `sidA` and an
attendance record for `sidA` already present for today (= 7). -/
def dbDup : DB :=
  { students := [{ student_id := sidA, name := "Amrutha M" }]
    sessions := [{ student_id := sidA, session_token := "tokA"
                   qr_verified := true, face_verified := false
                   created_at := 0, expires_at := 1000 }]
    attendance := [{ student_id := sidA, student_name := "Amrutha M"
                     date := 7, check_in_time := 3, method := "qr_face"
                     confidence_score := 90, is_offline := false }] }

/-- Witness for `attendance_unique_per_day`: part (1) applied to the
empty table, part (2) applied to `dbDup` where the classifier matches
`sidA` but today's record already exists. -/
theorem attendance_unique_per_day_witness :
    uniquePerStudentDate
      ([] ++ [{ student_id := sidA, student_name := "Amrutha M"
                date := 7, check_in_time := 3, method := "qr_face"
                confidence_score := 90, is_offline := false }])
    ∧ verify_face envA dbDup 5 7 8 sidA ("Amrutha M") imgOneFace
      = (dbDup, VerifyOutcome.httpError 500 VerifyErr.integrityAlreadyMarked) :=
  ⟨attendance_unique_per_day.1 []
      { student_id := sidA, student_name := "Amrutha M", date := 7
        check_in_time := 3, method := "qr_face"
        confidence_score := 90, is_offline := false } _
      (by simp [uniquePerStudentDate]) rfl,
   attendance_unique_per_day.2 envA dbDup 5 7 8 sidA ("Amrutha M") ("Amrutha M")
      imgOneFace
      { student_id := sidA, session_token := "tokA", qr_verified := true
        face_verified := false, created_at := 0, expires_at := 1000 }
      (by decide) (by decide) (by decide) (by decide) (by decide) (by decide)⟩

/-! ## Claim C4 — close after TTL expiry -/

/-- Database for the C4 counterexample: a session for `sidA` opened at
t = 1000 with TTL 60, so `expires_at = 1060`. -/
def dbExpired : DB :=
  { students := [{ student_id := sidA, name := "Amrutha M" }]
    sessions := [{ student_id := sidA, session_token := "tokA"
                   qr_verified := true, face_verified := false
                   created_at := 1000, expires_at := 1060 }]
    attendance := [] }

/-- `dbExpired` without any session at all. -/
def dbNoSession : DB :=
  { students := [{ student_id := sidA, name := "Amrutha M" }]
    sessions := [], attendance := [] }

/-- Claim C4 counterexample: closing at t+61 = 1061 a session opened at
t = 1000 with TTL 60 yields the "QR verification required before face
scan." rejection — the code's FACE_WITHOUT_QR path — which is exactly
the same outcome as submitting a face with no session at all. The code
has no distinct SessionExpired reason, so the claimed distinction from
`FaceWithoutToken` is false. -/
theorem expired_close_same_reason_as_no_token :
    verify_face envA dbExpired 1061 7 8 sidA ("Amrutha M") imgOneFace
      = (dbExpired, VerifyOutcome.httpError 400 VerifyErr.qrRequired)
    ∧ verify_face envA dbNoSession 1061 7 8 sidA ("Amrutha M") imgOneFace
      = (dbNoSession, VerifyOutcome.httpError 400 VerifyErr.qrRequired)
    ∧ (verify_face envA dbExpired 1061 7 8 sidA ("Amrutha M") imgOneFace).2
      = (verify_face envA dbNoSession 1061 7 8 sidA ("Amrutha M") imgOneFace).2 := by
  decide

/-- Claim C4 as amended: closing at t+61 a session opened at t with
TTL 60 fails — the session query (`expires_at > now`) finds no live
session, so the request is rejected with HTTP 400 "QR verification
required before face scan.", the same reason used when no session
exists; there is no distinct SessionExpired reason. -/
theorem expired_close_yields_qr_required (env : Env) (db : DB)
    (t today nowTime : Nat) (sid nm : String) (img : Image)
    (hvalid : validate_student_id sid = true) (hnm : nm ≠ "")
    (hexp : ∀ s ∈ db.sessions, s.student_id = sid → s.expires_at = t + 60) :
    verify_face env db (t + 61) today nowTime sid nm img
      = (db, VerifyOutcome.httpError 400 VerifyErr.qrRequired) := by
  have hnone : db.sessions.find? (sessionPred sid (t + 61)) = none := by
    rw [List.find?_eq_none]
    intro s hs
    by_cases hsid : s.student_id = sid
    · have he := hexp s hs hsid
      simp [sessionPred, hsid, he]
    · simp [sessionPred, hsid]
  unfold verify_face
  rw [hnone]
  simp [hvalid, hnm]

/-- Witness for `expired_close_yields_qr_required` at t = 1000 on
`dbExpired`. -/
theorem expired_close_yields_qr_required_witness :
    verify_face envA dbExpired (1000 + 61) 7 8 sidA ("Amrutha M") imgOneFace
      = (dbExpired, VerifyOutcome.httpError 400 VerifyErr.qrRequired) :=
  expired_close_yields_qr_required envA dbExpired 1000 7 8 sidA ("Amrutha M")
    imgOneFace (by decide) (by decide) (by decide)

/-! ## Sync loop helper lemmas -/

theorem sync_one_unmatched (env : Env) (students : List Student)
    (today nowTime : Nat) (st : SyncState) (r : OfflineRecord)
    (h : itemMatched env students r = false) :
    sync_one env students today nowTime st r =
      { st with
        results := st.results
          ++ [(r.studentId, .faceFailed (itemFaceResult env students r).message)]
        failure_count := st.failure_count + 1 } := by
  unfold itemMatched at h
  unfold sync_one
  dsimp only
  rw [h]
  simp

theorem sync_one_matched (env : Env) (students : List Student)
    (today nowTime : Nat) (st : SyncState) (r : OfflineRecord)
    (h : itemMatched env students r = true)
    (hnc : ∀ x ∈ st.attendance,
      ¬ (x.student_id = (itemRec env students today nowTime r).student_id
         ∧ x.date = (itemRec env students today nowTime r).date)) :
    sync_one env students today nowTime st r =
      { attendance := st.attendance ++ [itemRec env students today nowTime r]
        results := st.results ++ [(r.studentId, .synced)]
        success_count := st.success_count + 1
        failure_count := st.failure_count } := by
  have hfalse : st.attendance.any
      (fun x => decide (x.student_id = (itemRec env students today nowTime r).student_id
        ∧ x.date = (itemRec env students today nowTime r).date)) = false := by
    rw [List.any_eq_false]
    intro x hx
    simp only [decide_eq_true_eq]
    exact hnc x hx
  have hins : insertAttendance st.attendance (itemRec env students today nowTime r)
      = .ok (st.attendance ++ [itemRec env students today nowTime r]) := by
    unfold insertAttendance
    rw [hfalse]
    simp
  unfold itemMatched at h
  unfold sync_one
  dsimp only
  rw [h, hins]
  simp

theorem sync_one_total (env : Env) (students : List Student)
    (today nowTime : Nat) (st : SyncState) (r : OfflineRecord) :
    (sync_one env students today nowTime st r).success_count
      + (sync_one env students today nowTime st r).failure_count
      = st.success_count + st.failure_count + 1 := by
  unfold sync_one
  dsimp only
  split
  · simp
    omega
  · split
    · simp
      omega
    · simp
      omega

theorem sync_one_results_len (env : Env) (students : List Student)
    (today nowTime : Nat) (st : SyncState) (r : OfflineRecord) :
    (sync_one env students today nowTime st r).results.length
      = st.results.length + 1 := by
  unfold sync_one
  dsimp only
  split
  · simp
  · split <;> simp

theorem sync_fold_counts (env : Env) (students : List Student)
    (today nowTime : Nat) (recs : List OfflineRecord) : ∀ (st : SyncState),
    (recs.foldl (sync_one env students today nowTime) st).success_count
      + (recs.foldl (sync_one env students today nowTime) st).failure_count
      = st.success_count + st.failure_count + recs.length := by
  induction recs with
  | nil => intro st; simp
  | cons r rest ih =>
    intro st
    rw [List.foldl_cons, ih, sync_one_total]
    simp only [List.length_cons]
    omega

theorem sync_fold_results_len (env : Env) (students : List Student)
    (today nowTime : Nat) (recs : List OfflineRecord) : ∀ (st : SyncState),
    (recs.foldl (sync_one env students today nowTime) st).results.length
      = st.results.length + recs.length := by
  induction recs with
  | nil => intro st; simp
  | cons r rest ih =>
    intro st
    rw [List.foldl_cons, ih, sync_one_results_len]
    simp only [List.length_cons]
    omega

theorem sync_fold_spec (env : Env) (students : List Student)
    (today nowTime : Nat) (recs : List OfflineRecord) : ∀ (st : SyncState),
    (∀ r ∈ recs, itemMatched env students r = true →
      ∀ x ∈ st.attendance,
        ¬ (x.student_id = (itemRec env students today nowTime r).student_id
           ∧ x.date = (itemRec env students today nowTime r).date)) →
    recs.Pairwise (fun a b => itemMatched env students a = true →
      itemMatched env students b = true →
      ¬ ((itemRec env students today nowTime a).student_id
          = (itemRec env students today nowTime b).student_id
         ∧ (itemRec env students today nowTime a).date
          = (itemRec env students today nowTime b).date)) →
    (recs.foldl (sync_one env students today nowTime) st).attendance
      = st.attendance ++ (recs.filter (itemMatched env students)).map
          (itemRec env students today nowTime)
    ∧ (recs.foldl (sync_one env students today nowTime) st).failure_count
      = st.failure_count
        + (recs.filter (fun r => ! itemMatched env students r)).length
    ∧ (recs.foldl (sync_one env students today nowTime) st).results
      = st.results ++ recs.map (fun r => (r.studentId,
          if itemMatched env students r then SyncItemOutcome.synced
          else SyncItemOutcome.faceFailed (itemFaceResult env students r).message)) := by
  induction recs with
  | nil => intro st hd hp; simp
  | cons r rest ih =>
    intro st hd hp
    rw [List.pairwise_cons] at hp
    obtain ⟨hpr, hp'⟩ := hp
    rw [List.foldl_cons]
    by_cases hm : itemMatched env students r = true
    · have hnc := hd r (List.mem_cons_self r rest) hm
      rw [sync_one_matched env students today nowTime st r hm hnc]
      have hd' : ∀ r' ∈ rest, itemMatched env students r' = true →
          ∀ x ∈ st.attendance ++ [itemRec env students today nowTime r],
            ¬ (x.student_id = (itemRec env students today nowTime r').student_id
               ∧ x.date = (itemRec env students today nowTime r').date) := by
        intro r' hr' hm' x hx
        rcases List.mem_append.mp hx with hx1 | hx2
        · exact hd r' (List.mem_cons_of_mem r hr') hm' x hx1
        · rw [List.mem_singleton] at hx2
          subst hx2
          exact hpr r' hr' hm hm'
      obtain ⟨ha, hf, hr2⟩ := ih
        { attendance := st.attendance ++ [itemRec env students today nowTime r]
          results := st.results ++ [(r.studentId, .synced)]
          success_count := st.success_count + 1
          failure_count := st.failure_count } hd' hp'
      refine ⟨?_, ?_, ?_⟩
      · rw [ha]
        simp [List.filter_cons, hm, List.append_assoc]
      · rw [hf]
        simp [List.filter_cons, hm]
      · rw [hr2]
        simp [hm, List.append_assoc]
    · have hmf : itemMatched env students r = false := by
        simpa using hm
      rw [sync_one_unmatched env students today nowTime st r hmf]
      have hd' : ∀ r' ∈ rest, itemMatched env students r' = true →
          ∀ x ∈ st.attendance,
            ¬ (x.student_id = (itemRec env students today nowTime r').student_id
               ∧ x.date = (itemRec env students today nowTime r').date) := by
        intro r' hr' hm' x hx
        exact hd r' (List.mem_cons_of_mem r hr') hm' x hx
      obtain ⟨ha, hf, hr2⟩ := ih
        { st with
          results := st.results
            ++ [(r.studentId, .faceFailed (itemFaceResult env students r).message)]
          failure_count := st.failure_count + 1 } hd' hp'
      refine ⟨?_, ?_, ?_⟩
      · rw [ha]
        simp [List.filter_cons, hmf]
      · rw [hf]
        simp [List.filter_cons, hmf]
        omega
      · rw [hr2]
        simp [hmf, List.append_assoc]

/-! ## Claim C8 — batch reconciliation counts and independence -/

/-- An offline item that classifies successfully as `sidA`, resolving to
date 5, time 9. -/
def rMatch5 : OfflineRecord :=
  { studentId := sidA, studentName := "Amrutha M"
    image := imgOneFace, timestamp := some (5, 9) }

/-- An offline item whose classification fails (no detectable face),
resolving to date 6. -/
def rNoFace6 : OfflineRecord :=
  { studentId := sidA, studentName := "Amrutha M"
    image := imgBrightNoFace, timestamp := some (6, 9) }

/-- Claim C8 counterexample: a batch of two items that BOTH classify
successfully (M = 0) but resolve to the same (identity, date): the
second insert hits the uniqueness constraint, so `failedCount = 1 ≠ M`,
and the two identical items receive different outcomes depending on
their position in the batch — the per-item outcome is not independent
of the other items. -/
theorem duplicate_date_inflates_failed_count :
    (sync_offline_attendance envA studentsA 7 8 [] [rMatch5, rMatch5]).failure_count = 1
    ∧ ([rMatch5, rMatch5].filter (fun r => ! itemMatched envA studentsA r)).length = 0
    ∧ (1 : Nat) ≠ 0
    ∧ (sync_offline_attendance envA studentsA 7 8 [] [rMatch5, rMatch5]).results
        = [(sidA, SyncItemOutcome.synced),
           (sidA, SyncItemOutcome.insertError DbErr.uniqueStudentDate)] := by
  decide

/-- Claim C8 as amended: (1) unconditionally,
`successCount + failedCount = N` for a batch of N items; (2) provided no
successfully-classified item collides on (identity, date) with a
pre-existing attendance row or with another item of the batch,
`failedCount = M` (the number of items failing classification) and the
per-item results list is pointwise a function of each item alone
(success iff that item classifies), independent of ordering; without
that proviso a duplicate-date rejection adds to `failedCount` but never
rolls back sibling items. -/
theorem sync_counts_and_item_independence :
    (∀ (env : Env) (students : List Student) (today nowTime : Nat)
       (att0 : List AttRec) (recs : List OfflineRecord),
      (sync_offline_attendance env students today nowTime att0 recs).success_count
        + (sync_offline_attendance env students today nowTime att0 recs).failure_count
        = recs.length)
    ∧ (∀ (env : Env) (students : List Student) (today nowTime : Nat)
         (att0 : List AttRec) (recs : List OfflineRecord),
        (∀ r ∈ recs, itemMatched env students r = true →
          ∀ x ∈ att0,
            ¬ (x.student_id = (itemRec env students today nowTime r).student_id
               ∧ x.date = (itemRec env students today nowTime r).date)) →
        recs.Pairwise (fun a b => itemMatched env students a = true →
          itemMatched env students b = true →
          ¬ ((itemRec env students today nowTime a).student_id
              = (itemRec env students today nowTime b).student_id
             ∧ (itemRec env students today nowTime a).date
              = (itemRec env students today nowTime b).date)) →
        (sync_offline_attendance env students today nowTime att0 recs).failure_count
          = (recs.filter (fun r => ! itemMatched env students r)).length
        ∧ (sync_offline_attendance env students today nowTime att0 recs).results
          = recs.map (fun r => (r.studentId,
              if itemMatched env students r then SyncItemOutcome.synced
              else SyncItemOutcome.faceFailed (itemFaceResult env students r).message))) := by
  constructor
  · intro env students today nowTime att0 recs
    unfold sync_offline_attendance
    rw [sync_fold_counts]
    simp
  · intro env students today nowTime att0 recs hd hp
    unfold sync_offline_attendance
    obtain ⟨_, hf, hr⟩ := sync_fold_spec env students today nowTime recs
      { attendance := att0, results := [], success_count := 0, failure_count := 0 }
      hd hp
    exact ⟨by rw [hf]; simp, by rw [hr]; simp⟩

/-- Witness for `sync_counts_and_item_independence` on the concrete
batch `[rMatch5, rNoFace6]` (one match, one classification failure, no
date collisions). -/
theorem sync_counts_and_item_independence_witness :
    ((sync_offline_attendance envA studentsA 7 8 [] [rMatch5, rNoFace6]).success_count
      + (sync_offline_attendance envA studentsA 7 8 [] [rMatch5, rNoFace6]).failure_count
      = 2)
    ∧ (sync_offline_attendance envA studentsA 7 8 [] [rMatch5, rNoFace6]).failure_count
      = ([rMatch5, rNoFace6].filter (fun r => ! itemMatched envA studentsA r)).length
    ∧ (sync_offline_attendance envA studentsA 7 8 [] [rMatch5, rNoFace6]).results
      = [rMatch5, rNoFace6].map (fun r => (r.studentId,
          if itemMatched envA studentsA r then SyncItemOutcome.synced
          else SyncItemOutcome.faceFailed (itemFaceResult envA studentsA r).message)) :=
  ⟨sync_counts_and_item_independence.1 envA studentsA 7 8 [] [rMatch5, rNoFace6],
   sync_counts_and_item_independence.2 envA studentsA 7 8 [] [rMatch5, rNoFace6]
     (by decide) (by decide)⟩

/-! ## Claim C9 — offline record shape and batch cap -/

/-- Claim C9 counterexample: the record written for a successfully
matched offline item carries `method = 'face_recognition'`, not the
claimed `offline` method tag (the offline provenance is carried only by
`is_offline = true`). -/
theorem offline_method_tag_not_offline :
    (sync_offline_attendance envA studentsA 7 8 [] [rMatch5]).attendance
      = [{ student_id := sidA, student_name := "Amrutha M", date := 5
           check_in_time := 9, method := "face_recognition"
           confidence_score := 90, is_offline := true }]
    ∧ ("face_recognition" : String) ≠ "offline" := by
  decide

/-- Claim C9 as amended: (1) the row written for any offline item has
`method = 'face_recognition'` and `is_offline = true`, built from the
resolved identity id, name and confidence of the face result and the
resolved (client or substituted) date/time — as `itemRec` records; (2) a
successfully matched, non-colliding item appends exactly that row; (3)
`MAX_OFFLINE_RECORDS_PER_BATCH` is defined as 50 in the configuration,
but the sync endpoint does not enforce any cap: every batch produces one
per-item result per input item, whatever the batch length. -/
theorem offline_record_shape_and_no_cap :
    (∀ (env : Env) (students : List Student) (today nowTime : Nat)
       (r : OfflineRecord),
      (itemRec env students today nowTime r).method = "face_recognition"
      ∧ (itemRec env students today nowTime r).is_offline = true)
    ∧ MAX_OFFLINE_RECORDS_PER_BATCH = 50
    ∧ (∀ (env : Env) (students : List Student) (today nowTime : Nat)
         (st : SyncState) (r : OfflineRecord),
        itemMatched env students r = true →
        (∀ x ∈ st.attendance,
          ¬ (x.student_id = (itemRec env students today nowTime r).student_id
             ∧ x.date = (itemRec env students today nowTime r).date)) →
        sync_one env students today nowTime st r =
          { attendance := st.attendance ++ [itemRec env students today nowTime r]
            results := st.results ++ [(r.studentId, SyncItemOutcome.synced)]
            success_count := st.success_count + 1
            failure_count := st.failure_count })
    ∧ (∀ (env : Env) (students : List Student) (today nowTime : Nat)
         (att0 : List AttRec) (recs : List OfflineRecord),
        (sync_offline_attendance env students today nowTime att0 recs).results.length
          = recs.length) := by
  refine ⟨fun env students today nowTime r => ⟨rfl, rfl⟩, rfl, sync_one_matched, ?_⟩
  intro env students today nowTime att0 recs
  unfold sync_offline_attendance
  rw [sync_fold_results_len]
  simp

/-- Witness for `offline_record_shape_and_no_cap` at the concrete
matched item `rMatch5`. -/
theorem offline_record_shape_and_no_cap_witness :
    (itemRec envA studentsA 7 8 rMatch5).method = "face_recognition"
    ∧ (itemRec envA studentsA 7 8 rMatch5).is_offline = true
    ∧ sync_one envA studentsA 7 8
        { attendance := [], results := [], success_count := 0, failure_count := 0 }
        rMatch5
      = { attendance := [] ++ [itemRec envA studentsA 7 8 rMatch5]
          results := [] ++ [(rMatch5.studentId, SyncItemOutcome.synced)]
          success_count := 0 + 1, failure_count := 0 }
    ∧ (sync_offline_attendance envA studentsA 7 8 [] [rMatch5]).results.length
      = [rMatch5].length :=
  ⟨(offline_record_shape_and_no_cap.1 envA studentsA 7 8 rMatch5).1,
   (offline_record_shape_and_no_cap.1 envA studentsA 7 8 rMatch5).2,
   offline_record_shape_and_no_cap.2.2.1 envA studentsA 7 8
     { attendance := [], results := [], success_count := 0, failure_count := 0 }
     rMatch5 (by decide) (by decide),
   offline_record_shape_and_no_cap.2.2.2 envA studentsA 7 8 [] [rMatch5]⟩
